import Mathlib

/-!
Verification development for the hade-avatar-server relay (src/server.js).

The embedding models JavaScript JSON-like values as `JsVal`, translates the
pure helper `extractVoiceflowReply` directly, and models the two request
handlers (`POST /vf/reply`, `GET /did/client-key`) as pure functions of:
the environment configuration, the in-memory cache state, the current clock
reading, and an oracle giving the responses of the outbound fetches in the
order the handler would issue them.  Each handler returns its HTTP response,
the resulting cache state, and the number of outbound calls it made.
-/

/-- A JavaScript JSON-ish value.  `null` also stands for `undefined`
(both are falsy and yield `undefined` on property access, which we again
model as `null`). -/
inductive JsVal where
  | null : JsVal
  | bool : Bool → JsVal
  | num : Int → JsVal
  | str : String → JsVal
  | arr : List JsVal → JsVal
  | obj : List (String × JsVal) → JsVal

/-- First-match field lookup in an object literal, `null` when absent. -/
def lookupField : List (String × JsVal) → String → JsVal
  | [], _ => JsVal.null
  | (k, v) :: rest, name => if k = name then v else lookupField rest name

/-- Property access `v?.name`: fields of objects, `undefined` (here `null`)
on everything else, matching optional chaining in the source. -/
def getField : JsVal → String → JsVal
  | JsVal.obj fields, name => lookupField fields name
  | _, _ => JsVal.null

/-- JavaScript truthiness of a `JsVal`. -/
def truthy : JsVal → Bool
  | JsVal.null => false
  | JsVal.bool b => b
  | JsVal.num n => n != 0
  | JsVal.str s => s != ""
  | JsVal.arr _ => true
  | JsVal.obj _ => true

/-- Whether the value is a JavaScript string (`typeof v === "string"`). -/
def isStr : JsVal → Bool
  | JsVal.str _ => true
  | _ => false

/-- Whether the first character list starts the second one. -/
def listStartsWith : List Char → List Char → Bool
  | [], _ => true
  | _ :: _, [] => false
  | a :: as, b :: bs => a == b && listStartsWith as bs

/-- Whether the first character list occurs contiguously in the second. -/
def listHasInfix (sub : List Char) : List Char → Bool
  | [] => listStartsWith sub []
  | c :: rest => listStartsWith sub (c :: rest) || listHasInfix sub rest

/-- JavaScript `s.includes(sub)`. -/
def includesSub (s sub : String) : Bool :=
  listHasInfix sub.toList s.toList

/-- Drop leading whitespace characters. -/
def dropLeadingWs : List Char → List Char
  | [] => []
  | c :: cs => if c.isWhitespace then dropLeadingWs cs else c :: cs

/-- JavaScript `s.trim()`: strip leading and trailing whitespace. -/
def jsTrim (s : String) : String :=
  ⟨(dropLeadingWs (dropLeadingWs s.toList).reverse).reverse⟩

/-- JavaScript `parts.join(sep)`. -/
def joinWithSep (sep : String) : List String → String
  | [] => ""
  | [s] => s
  | s :: rest => s ++ sep ++ joinWithSep sep rest

/-- The `t.type !== "text"` guard of `extractVoiceflowReply`, negated. -/
def isTypeText (t : JsVal) : Bool :=
  match getField t "type" with
  | JsVal.str s => s == "text"
  | _ => false

/-- Body of the `for (const ch of children)` loop of the slate branch:
collect `ch.text` when it is a string whose trim is non-blank. -/
def collectLeaf (texts : List String) (ch : JsVal) : List String :=
  match getField ch "text" with
  | JsVal.str tx => if jsTrim tx ≠ "" then texts ++ [jsTrim tx] else texts
  | _ => texts

/-- Body of the `for (const block of content)` loop of the slate branch:
walk `block.children` when it is an array, else contribute nothing. -/
def collectBlock (texts : List String) (block : JsVal) : List String :=
  match getField block "children" with
  | JsVal.arr children => children.foldl collectLeaf texts
  | _ => texts

/-- Inner loops of the slate branch of `extractVoiceflowReply`: walk the
blocks of `payload.slate.content`, collecting each trimmed non-blank string
`ch.text` of each `block.children` into one flat list. -/
def slateTexts (content : List JsVal) : List String :=
  content.foldl collectBlock []

/-- The slate branch of the per-event loop: if `payload.slate.content` is an
array and yields at least one text, push the space-join of all collected
texts as one part. -/
def slatePart (parts : List String) (t : JsVal) : List String :=
  match getField (getField (getField t "payload") "slate") "content" with
  | JsVal.arr content =>
      let texts := slateTexts content
      if texts.length ≠ 0 then parts ++ [joinWithSep " " texts] else parts
  | _ => parts

/-- One iteration of the `for (const t of traces)` loop of
`extractVoiceflowReply`: skip falsy or non-text events; prefer a non-blank
`payload.message`; otherwise fall through to the slate branch. -/
def collectEvent (parts : List String) (t : JsVal) : List String :=
  if !truthy t || !isTypeText t then parts
  else
    match getField (getField t "payload") "message" with
    | JsVal.str m => if jsTrim m ≠ "" then parts ++ [jsTrim m] else slatePart parts t
    | _ => slatePart parts t

/-- Translation of `extractVoiceflowReply` from src/server.js: non-arrays
give the empty string; otherwise the collected per-event parts are joined
with a newline and the result trimmed. -/
def extractVoiceflowReply : JsVal → String
  | JsVal.arr ts => jsTrim (joinWithSep "\n" (ts.foldl collectEvent []))
  | _ => ""

/-- An outbound fetch outcome as the handlers observe it: `ok` is
`response.ok` (status in 200..299), `status` is `response.status`, and
`jsonBody` is the parsed JSON body, `none` when `response.json()` rejects
(malformed or non-JSON body). -/
structure FetchResp where
  ok : Bool
  status : Nat
  jsonBody : Option JsVal

/-- An HTTP response sent back to the inbound caller. -/
structure HttpResp where
  status : Nat
  body : JsVal

/-- The `res.status(500).json({ error: "server_error", message })` reply of
the catch blocks. -/
def serverErrorResp (msg : String) : HttpResp :=
  ⟨500, JsVal.obj [("error", JsVal.str "server_error"), ("message", JsVal.str msg)]⟩

/-- The module-level mutable slot pair `cachedClientKey` (initially `null`)
and `cachedAt` (a millisecond timestamp, initially 0). -/
structure CacheState where
  cachedClientKey : JsVal
  cachedAt : Int

/-- The cache freshness window `10 * 60 * 1000` milliseconds. -/
def TTL_MS : Int := 10 * 60 * 1000

/-- The read side of the key cache, as the handler performs it:
`cachedClientKey && Date.now() - cachedAt < 10 * 60 * 1000`. -/
def cacheGet (st : CacheState) (now : Int) : Option JsVal :=
  if truthy st.cachedClientKey && decide (now - st.cachedAt < TTL_MS) then
    some st.cachedClientKey
  else none

/-- The write side of the key cache: `cachedClientKey = k; cachedAt = Date.now()`. -/
def cacheSet (k : JsVal) (now : Int) : CacheState := ⟨k, now⟩

/-- The key extraction chain
`d?.client_key || d?.clientKey || d?.key` (first truthy wins, else the
last operand). -/
def keyOf (d : JsVal) : JsVal :=
  let a := getField d "client_key"
  if truthy a then a
  else
    let b := getField d "clientKey"
    if truthy b then b else getField d "key"

/-- The guard `(postData?.description || "").includes("already exists")`.
`some b` is the boolean outcome; `none` models the TypeError thrown when
the description is truthy but not a string (caught by the outer catch). -/
def descAlreadyExists (postData : JsVal) : Option Bool :=
  let d := getField postData "description"
  match (if truthy d then d else JsVal.str "") with
  | JsVal.str s => some (includesSub s "already exists")
  | _ => none

/-- Environment configuration of the D-ID key endpoint. Empty strings model
unset variables (the source defaults them to `""`). -/
structure DidEnv where
  basicUser : String
  basicPass : String
  allowedDomain : String

/-- The responses the three possible outbound calls of the key acquisition
protocol would receive, in program order: first GET, POST create, recovery
GET. -/
structure DidUpstream where
  getFirst : FetchResp
  postCreate : FetchResp
  getRetry : FetchResp

/-- Translation of the `GET /did/client-key` handler from src/server.js.
Returns the HTTP response, the cache state after the request, and the
number of outbound calls issued.  The `.catch(() => ({}))` fallbacks on
`json()` become `Option.getD (JsVal.obj [])`. -/
def didClientKeyHandler (env : DidEnv) (st : CacheState) (now : Int)
    (up : DidUpstream) : HttpResp × CacheState × Nat :=
  if truthy st.cachedClientKey && decide (now - st.cachedAt < TTL_MS) then
    (⟨200, JsVal.obj [("clientKey", st.cachedClientKey), ("cached", JsVal.bool true)]⟩,
     st, 0)
  else if env.basicUser = "" then
    (serverErrorResp "Missing env var: DID_BASIC_USER", st, 0)
  else if env.basicPass = "" then
    (serverErrorResp "Missing env var: DID_BASIC_PASS", st, 0)
  else
    let getData := up.getFirst.jsonBody.getD (JsVal.obj [])
    let k1 := keyOf getData
    if up.getFirst.ok && truthy k1 then
      (⟨200, JsVal.obj [("clientKey", k1)]⟩, cacheSet k1 now, 1)
    else
      let postData := up.postCreate.jsonBody.getD (JsVal.obj [])
      if !up.postCreate.ok then
        match descAlreadyExists postData with
        | none =>
          -- the includes call threw a TypeError; the catch block answers 500
          (serverErrorResp "postData.description.includes is not a function", st, 2)
        | some true =>
          let getData2 := up.getRetry.jsonBody.getD (JsVal.obj [])
          let k2 := keyOf getData2
          if !up.getRetry.ok || !truthy k2 then
            (⟨502, JsVal.obj [("error", JsVal.str "did_error"),
               ("message", JsVal.str "Client key exists but could not be fetched"),
               ("details", getData2)]⟩, st, 3)
          else
            (⟨200, JsVal.obj [("clientKey", k2),
               ("note", JsVal.str "fetched_after_exists")]⟩, cacheSet k2 now, 3)
        | some false =>
          (⟨502, JsVal.obj [("error", JsVal.str "did_error"),
             ("status", JsVal.num up.postCreate.status),
             ("details", postData)]⟩, st, 2)
      else
        let k := keyOf postData
        if !truthy k then
          (⟨502, JsVal.obj [("error", JsVal.str "did_error"),
             ("message", JsVal.str "D-ID did not return a clientKey"),
             ("details", postData)]⟩, st, 2)
        else
          (⟨200, JsVal.obj [("clientKey", k)]⟩, cacheSet k now, 2)

/-- Environment configuration of the Voiceflow relay endpoint. -/
structure VfEnv where
  stateId : String
  apiKey : String

/-- The fixed fallback phrase substituted when extraction yields the empty
string. -/
def vfFallback : String := "Îmi pare rău, nu am un răspuns acum."

/-- Translation of the `POST /vf/reply` handler from src/server.js.
`reqBody` is `req.body`; `up` is the response of the single outbound fetch
(`.catch(() => null)` on `json()` becomes `Option.getD JsVal.null`).
Returns the HTTP response and the number of outbound calls issued. -/
def vfReplyHandler (env : VfEnv) (reqBody : JsVal) (up : FetchResp) :
    HttpResp × Nat :=
  if env.stateId = "" then (serverErrorResp "Missing env var: VF_STATE_ID", 0)
  else if env.apiKey = "" then (serverErrorResp "Missing env var: VF_API_KEY", 0)
  else
    let b := if truthy reqBody then reqBody else JsVal.obj []
    let sessionId := getField b "sessionId"
    let userText := getField b "userText"
    if !truthy sessionId || !isStr sessionId then
      (⟨400, JsVal.obj [("error", JsVal.str "sessionId is required (string)")]⟩, 0)
    else if !truthy userText || !isStr userText then
      (⟨400, JsVal.obj [("error", JsVal.str "userText is required (string)")]⟩, 0)
    else
      let data := up.jsonBody.getD JsVal.null
      if !up.ok then
        (⟨up.status, JsVal.obj [("error", JsVal.str "voiceflow_error"),
           ("status", JsVal.num up.status),
           ("details", if truthy data then data
             else JsVal.obj [("message", JsVal.str "Voiceflow returned non-JSON error")])]⟩,
         1)
      else
        let traces :=
          match data with
          | JsVal.arr elems => JsVal.arr elems
          | _ =>
            let t1 := getField data "trace"
            if truthy t1 then t1
            else
              let t2 := getField data "traces"
              if truthy t2 then t2 else data
        let extracted := extractVoiceflowReply traces
        let replyText := if extracted = "" then vfFallback else extracted
        (⟨200, JsVal.obj [("replyText", JsVal.str replyText)]⟩, 1)

/-- A leaf inline node `{ text: s }` of a rich-text document. -/
def leafNode (s : String) : JsVal := JsVal.obj [("text", JsVal.str s)]

/-- A rich-text block `{ children: [...] }` with the given leaf texts. -/
def slateBlock (xs : List String) : JsVal :=
  JsVal.obj [("children", JsVal.arr (xs.map leafNode))]

/-- A text-kind trace event with no flat message and the given slate
blocks. -/
def richTextEvent (blocks : List (List String)) : JsVal :=
  JsVal.obj [("type", JsVal.str "text"),
    ("payload", JsVal.obj [("slate", JsVal.obj
      [("content", JsVal.arr (blocks.map slateBlock))])])]

/-- The concrete input of the claim: one rich-text event with blocks
`[[{text:"a"},{text:"b"}],[{text:"c"}]]`. -/
def c1Input : JsVal := JsVal.arr [richTextEvent [["a", "b"], ["c"]]]

/-- The amended claim, stated in its own words: the message list one
rich-text event contributes is the trimmed non-blank leaf texts of ALL its
blocks, in order, joined with single spaces into at most one collected
message (none when every leaf is blank). -/
def amendedEventMessage (blocks : List (List String)) : List String :=
  let texts := (blocks.flatten.map jsTrim).filter (fun s => s != "")
  if texts.length ≠ 0 then [joinWithSep " " texts] else []

/-- C1 counterexample: on the single rich-text event with blocks
`[[a,b],[c]]` the extractor returns `"a b c"`, not the claimed
`"a b\nc"` — the source joins the leaf texts of all blocks of one event
into a single space-separated part, so block boundaries never introduce a
newline. -/
theorem c1_counterexample :
    extractVoiceflowReply c1Input = "a b c" ∧
      extractVoiceflowReply c1Input ≠ "a b\nc" :=
  ⟨rfl, by decide⟩

/-- The inner loop over the children of one block collects exactly the
trimmed non-blank leaf texts of the block, in order, after the
accumulator. -/
theorem foldl_collectLeaf (xs : List String) (acc : List String) :
    (xs.map leafNode).foldl collectLeaf acc =
      acc ++ (xs.map jsTrim).filter (fun s => s != "") := by
  induction xs generalizing acc with
  | nil => simp
  | cons x xs ih =>
    simp only [List.map_cons, List.foldl_cons]
    have hx : collectLeaf acc (leafNode x) =
        (if jsTrim x ≠ "" then acc ++ [jsTrim x] else acc) := rfl
    rw [hx]
    by_cases h : jsTrim x ≠ ""
    · rw [if_pos h, ih, List.filter_cons]
      simp [h]
    · rw [if_neg h, ih, List.filter_cons]
      simp only [ne_eq, not_not] at h
      simp [h]

/-- The outer loop over the blocks of one event concatenates the collected
leaf texts of all blocks, in order, after the accumulator. -/
theorem foldl_collectBlock (bs : List (List String)) (acc : List String) :
    (bs.map slateBlock).foldl collectBlock acc =
      acc ++ (bs.flatten.map jsTrim).filter (fun s => s != "") := by
  induction bs generalizing acc with
  | nil => simp
  | cons b bs ih =>
    simp only [List.map_cons, List.foldl_cons]
    have hb : collectBlock acc (slateBlock b) =
        (b.map leafNode).foldl collectLeaf acc := rfl
    rw [hb, foldl_collectLeaf, ih, List.flatten_cons]
    simp [List.map_append, List.filter_append, List.append_assoc]

/-- The slate walk of one rich-text event yields the trimmed non-blank
leaf texts of all its blocks, flattened in order. -/
theorem slateTexts_blocks (bs : List (List String)) :
    slateTexts (bs.map slateBlock) =
      (bs.flatten.map jsTrim).filter (fun s => s != "") := by
  show (bs.map slateBlock).foldl collectBlock [] = _
  rw [foldl_collectBlock, List.nil_append]

/-- One rich-text event contributes to the parts list exactly the message
the amended claim describes: the space-join of the trimmed non-blank leaf
texts of all its blocks, or nothing when every leaf is blank. -/
theorem collectEvent_richTextEvent (parts : List String)
    (bs : List (List String)) :
    collectEvent parts (richTextEvent bs) = parts ++ amendedEventMessage bs := by
  have hred : collectEvent parts (richTextEvent bs) =
      (if (slateTexts (bs.map slateBlock)).length ≠ 0
       then parts ++ [joinWithSep " " (slateTexts (bs.map slateBlock))]
       else parts) := rfl
  rw [hred, slateTexts_blocks]
  simp only [amendedEventMessage]
  by_cases h : ((bs.flatten.map jsTrim).filter (fun s => s != "")).length ≠ 0
  · rw [if_pos h, if_pos h]
  · rw [if_neg h, if_neg h, List.append_nil]

/-- Folding the per-event loop over any list of rich-text events appends
one amended-claim message per event, in order. -/
theorem foldl_collectEvent_rich (events : List (List (List String)))
    (parts : List String) :
    (events.map richTextEvent).foldl collectEvent parts =
      parts ++ (events.map amendedEventMessage).flatten := by
  induction events generalizing parts with
  | nil => simp
  | cons e es ih =>
    simp only [List.map_cons, List.foldl_cons, List.flatten_cons]
    rw [collectEvent_richTextEvent, ih, List.append_assoc]

/-- C1 (amended): for every sequence of rich-text events, over arbitrary
blocks of arbitrary leaf texts, the extractor emits one collected message
per event — the trimmed non-blank leaf texts of ALL blocks of that event
joined with single spaces — and joins the messages of distinct events with
a newline before the final trim; in particular the single event with
blocks `[[a,b],[c]]` produces exactly `"a b c"`. -/
theorem c1_blocks_join_with_space (events : List (List (List String))) :
    extractVoiceflowReply (JsVal.arr (events.map richTextEvent)) =
      jsTrim (joinWithSep "\n" ((events.map amendedEventMessage).flatten)) ∧
    extractVoiceflowReply c1Input = "a b c" := by
  constructor
  · show jsTrim (joinWithSep "\n"
      ((events.map richTextEvent).foldl collectEvent [])) = _
    rw [foldl_collectEvent_rich, List.nil_append]
  · rfl

/-- An event whose `type` is not the string `"text"` fails the
`isTypeText` guard. -/
theorem isTypeText_eq_false {t : JsVal}
    (h : getField t "type" ≠ JsVal.str "text") : isTypeText t = false := by
  unfold isTypeText
  split
  · rename_i s heq
    rcases eq_or_ne s "text" with hs | hs
    · subst hs; exact absurd heq h
    · simp [hs]
  · rfl

/-- The per-event loop body skips any event whose `type` is not `"text"`. -/
theorem collectEvent_skip {parts : List String} {t : JsVal}
    (h : getField t "type" ≠ JsVal.str "text") : collectEvent parts t = parts := by
  unfold collectEvent
  rw [isTypeText_eq_false h]
  simp

/-- Folding the loop body over a list with no text-kind event leaves the
accumulator unchanged. -/
theorem foldl_collectEvent_skip {ts : List JsVal}
    (h : ∀ t ∈ ts, getField t "type" ≠ JsVal.str "text") (parts : List String) :
    ts.foldl collectEvent parts = parts := by
  induction ts generalizing parts with
  | nil => rfl
  | cons t rest ih =>
    rw [List.foldl_cons, collectEvent_skip (h t (by simp))]
    exact ih (fun x hx => h x (by simp [hx])) parts

/-- C8: a non-array input yields the empty string, and so does any array
whose events all have a kind other than `"text"`. -/
theorem c8_non_text_yields_empty (v : JsVal) (ts : List JsVal)
    (hv : ∀ es, v ≠ JsVal.arr es)
    (ht : ∀ t ∈ ts, getField t "type" ≠ JsVal.str "text") :
    extractVoiceflowReply v = "" ∧ extractVoiceflowReply (JsVal.arr ts) = "" := by
  constructor
  · cases v with
    | arr es => exact absurd rfl (hv es)
    | null => rfl
    | bool b => rfl
    | num n => rfl
    | str s => rfl
    | obj fields => rfl
  · show jsTrim (joinWithSep "\n" (ts.foldl collectEvent [])) = ""
    rw [foldl_collectEvent_skip ht]
    rfl

/-- C8 applied to the concrete non-array `null` and to a singleton array
holding a `speak`-kind event. -/
theorem c8_non_text_yields_empty_witness :
    extractVoiceflowReply JsVal.null = "" ∧
      extractVoiceflowReply (JsVal.arr [JsVal.obj [("type", JsVal.str "speak")]]) = "" :=
  c8_non_text_yields_empty JsVal.null [JsVal.obj [("type", JsVal.str "speak")]]
    (fun _ h => JsVal.noConfusion h)
    (by
      intro t ht hcontra
      rw [List.mem_singleton.mp ht] at hcontra
      exact absurd (JsVal.str.inj hcontra) (by decide))

/-- C4: the cache read succeeds exactly when the slot is truthy and the
clock reading is within TTL of the stamp; after a write of `"X"` at `t0`,
a read strictly inside the window returns `"X"` and a read at or past the
window reports the cache absent. -/
theorem c4_key_cache_ttl (st : CacheState) (t0 now : Int) :
    (cacheGet st now = some st.cachedClientKey ↔
      (truthy st.cachedClientKey = true ∧ now - st.cachedAt < TTL_MS)) ∧
    (now - t0 < TTL_MS →
      cacheGet (cacheSet (JsVal.str "X") t0) now = some (JsVal.str "X")) ∧
    (TTL_MS ≤ now - t0 →
      cacheGet (cacheSet (JsVal.str "X") t0) now = none) := by
  refine ⟨⟨fun hg => ?_, fun hc => ?_⟩, fun hfresh => ?_, fun hstale => ?_⟩
  · by_cases hc : (truthy st.cachedClientKey &&
        decide (now - st.cachedAt < TTL_MS)) = true
    · rcases Bool.and_eq_true .. |>.mp hc with ⟨h1, h2⟩
      exact ⟨h1, of_decide_eq_true h2⟩
    · rw [cacheGet, if_neg (by simpa using hc)] at hg
      exact absurd hg (by simp)
  · rw [cacheGet, if_pos (by simp [hc.1, hc.2])]
  · simp [cacheGet, cacheSet, truthy, hfresh]
  · simp [cacheGet, cacheSet, truthy, not_lt.mpr hstale]

/-- C4 applied concretely: write `"X"` at time 0, read at 5 ms and at
exactly the TTL boundary. -/
theorem c4_key_cache_ttl_witness :
    cacheGet (cacheSet (JsVal.str "X") 0) 5 = some (JsVal.str "X") ∧
      cacheGet (cacheSet (JsVal.str "X") 0) 600000 = none :=
  ⟨(c4_key_cache_ttl ⟨JsVal.null, 0⟩ 0 5).2.1 (by decide),
   (c4_key_cache_ttl ⟨JsVal.null, 0⟩ 0 600000).2.2 (by decide)⟩

/-- C5: while the cache holds a truthy value within TTL, the handler
answers 200 with the cached value and `cached: true`, leaves the cache
unchanged, and issues zero outbound calls. -/
theorem c5_cache_hit_short_circuit (env : DidEnv) (st : CacheState) (now : Int)
    (up : DidUpstream)
    (h1 : truthy st.cachedClientKey = true) (h2 : now - st.cachedAt < TTL_MS) :
    didClientKeyHandler env st now up =
      (⟨200, JsVal.obj [("clientKey", st.cachedClientKey),
        ("cached", JsVal.bool true)]⟩, st, 0) := by
  rw [didClientKeyHandler, if_pos (by simp [h1, h2])]

/-- C5 applied to a concrete fresh cache entry `"K"` stamped at 0, read at
1 ms, with arbitrary upstream responses. -/
theorem c5_cache_hit_short_circuit_witness :
    didClientKeyHandler ⟨"u", "p", "https://example.org"⟩ ⟨JsVal.str "K", 0⟩ 1
        ⟨⟨true, 200, none⟩, ⟨true, 201, none⟩, ⟨true, 200, none⟩⟩ =
      (⟨200, JsVal.obj [("clientKey", JsVal.str "K"),
        ("cached", JsVal.bool true)]⟩, ⟨JsVal.str "K", 0⟩, 0) :=
  c5_cache_hit_short_circuit _ _ _ _ (by decide) (by decide)

/-- A request body carrying valid `sessionId` and `userText` strings. -/
def vfGoodBody : JsVal :=
  JsVal.obj [("sessionId", JsVal.str "s1"), ("userText", JsVal.str "hello")]

/-- C2 counterexample: a 2xx upstream response whose body fails JSON
parsing is not reported as an upstream error — the relay answers 200 with
the fallback reply text, and its body carries no error field at all. -/
theorem c2_counterexample :
    vfReplyHandler ⟨"st1", "key1"⟩ vfGoodBody ⟨true, 200, none⟩ =
      (⟨200, JsVal.obj [("replyText", JsVal.str vfFallback)]⟩, 1) ∧
    getField (vfReplyHandler ⟨"st1", "key1"⟩ vfGoodBody ⟨true, 200, none⟩).1.body
      "error" = JsVal.null :=
  ⟨rfl, rfl⟩

/-- C2 (amended): with the environment configured and a valid body, a
non-2xx upstream response is passed through with the upstream status and a
`voiceflow_error` body (details from the parsed JSON, else a non-JSON
note); a 2xx upstream response with a malformed/non-JSON body is not
reported as an error: the relay answers 200 with the fallback reply
text. -/
theorem c2_upstream_error_passthrough (env : VfEnv) (reqBody : JsVal)
    (up : FetchResp)
    (h1 : env.stateId ≠ "") (h2 : env.apiKey ≠ "")
    (hs : (truthy (getField (if truthy reqBody then reqBody else JsVal.obj [])
        "sessionId") && isStr (getField (if truthy reqBody then reqBody
        else JsVal.obj []) "sessionId")) = true)
    (hu : (truthy (getField (if truthy reqBody then reqBody else JsVal.obj [])
        "userText") && isStr (getField (if truthy reqBody then reqBody
        else JsVal.obj []) "userText")) = true) :
    (up.ok = false →
      vfReplyHandler env reqBody up =
        (⟨up.status, JsVal.obj [("error", JsVal.str "voiceflow_error"),
          ("status", JsVal.num up.status),
          ("details",
            if truthy (up.jsonBody.getD JsVal.null) then up.jsonBody.getD JsVal.null
            else JsVal.obj [("message",
              JsVal.str "Voiceflow returned non-JSON error")])]⟩, 1)) ∧
    (up.ok = true → up.jsonBody = none →
      vfReplyHandler env reqBody up =
        (⟨200, JsVal.obj [("replyText", JsVal.str vfFallback)]⟩, 1)) := by
  rcases Bool.and_eq_true .. |>.mp hs with ⟨hs1, hs2⟩
  rcases Bool.and_eq_true .. |>.mp hu with ⟨hu1, hu2⟩
  constructor
  · intro hok
    simp [vfReplyHandler, h1, h2, hs1, hs2, hu1, hu2, hok]
  · intro hok hbody
    rw [vfReplyHandler, if_neg h1, if_neg h2]
    simp only [hok, hbody, hs1, hs2, hu1, hu2, Bool.not_true, Bool.or_self,
      Bool.or_false, Bool.false_eq_true, if_false]
    rfl

/-- C2 (amended) applied concretely: upstream 404 with a JSON body is
mirrored with status 404, error `voiceflow_error` and the parsed body as
details. -/
theorem c2_upstream_error_passthrough_witness :
    vfReplyHandler ⟨"st1", "key1"⟩ vfGoodBody
        ⟨false, 404, some (JsVal.obj [("message", JsVal.str "bad")])⟩ =
      (⟨404, JsVal.obj [("error", JsVal.str "voiceflow_error"),
        ("status", JsVal.num 404),
        ("details", JsVal.obj [("message", JsVal.str "bad")])]⟩, 1) := by
  have h := (c2_upstream_error_passthrough ⟨"st1", "key1"⟩ vfGoodBody
    ⟨false, 404, some (JsVal.obj [("message", JsVal.str "bad")])⟩
    (by decide) (by decide) (by decide) (by decide)).1 rfl
  simpa using h

/-- C7: with the environment configured, a request whose `sessionId` or
`userText` is missing, falsy, or not a string is answered 400 with one of
the two descriptive error messages, and no outbound call is made. -/
theorem c7_validation_400_no_call (env : VfEnv) (reqBody : JsVal)
    (up : FetchResp)
    (h1 : env.stateId ≠ "") (h2 : env.apiKey ≠ "")
    (h3 : (!truthy (getField (if truthy reqBody then reqBody else JsVal.obj [])
        "sessionId") || !isStr (getField (if truthy reqBody then reqBody
        else JsVal.obj []) "sessionId")) = true
      ∨ (!truthy (getField (if truthy reqBody then reqBody else JsVal.obj [])
        "userText") || !isStr (getField (if truthy reqBody then reqBody
        else JsVal.obj []) "userText")) = true) :
    (vfReplyHandler env reqBody up).1.status = 400 ∧
    (vfReplyHandler env reqBody up).2 = 0 ∧
    ((vfReplyHandler env reqBody up).1.body =
        JsVal.obj [("error", JsVal.str "sessionId is required (string)")] ∨
      (vfReplyHandler env reqBody up).1.body =
        JsVal.obj [("error", JsVal.str "userText is required (string)")]) := by
  by_cases hsess : (!truthy (getField (if truthy reqBody then reqBody
      else JsVal.obj []) "sessionId") || !isStr (getField (if truthy reqBody
      then reqBody else JsVal.obj []) "sessionId")) = true
  · simp [vfReplyHandler, h1, h2, hsess]
  · rcases h3 with h3 | h3
    · exact absurd h3 hsess
    · simp [vfReplyHandler, h1, h2, hsess, h3]

/-- C7 applied concretely: the environment is configured but the body
lacks `userText`; the answer is 400 with zero outbound calls. -/
theorem c7_validation_400_no_call_witness :
    (vfReplyHandler ⟨"st1", "key1"⟩
        (JsVal.obj [("sessionId", JsVal.str "s1")]) ⟨true, 200, none⟩).1.status
        = 400 ∧
    (vfReplyHandler ⟨"st1", "key1"⟩
        (JsVal.obj [("sessionId", JsVal.str "s1")]) ⟨true, 200, none⟩).2 = 0 ∧
    ((vfReplyHandler ⟨"st1", "key1"⟩
        (JsVal.obj [("sessionId", JsVal.str "s1")]) ⟨true, 200, none⟩).1.body =
        JsVal.obj [("error", JsVal.str "sessionId is required (string)")] ∨
      (vfReplyHandler ⟨"st1", "key1"⟩
        (JsVal.obj [("sessionId", JsVal.str "s1")]) ⟨true, 200, none⟩).1.body =
        JsVal.obj [("error", JsVal.str "userText is required (string)")]) :=
  c7_validation_400_no_call ⟨"st1", "key1"⟩
    (JsVal.obj [("sessionId", JsVal.str "s1")]) ⟨true, 200, none⟩
    (by decide) (by decide) (Or.inr (by decide))

/-- C10: when `VF_STATE_ID` or `VF_API_KEY` is unset, the handler answers
500 with error `server_error` and makes no outbound call, whatever the
request body holds — the configuration check precedes body validation. -/
theorem c10_env_check_precedes_validation (env : VfEnv) (reqBody : JsVal)
    (up : FetchResp) (h : env.stateId = "" ∨ env.apiKey = "") :
    (vfReplyHandler env reqBody up).1.status = 500 ∧
    getField (vfReplyHandler env reqBody up).1.body "error" =
      JsVal.str "server_error" ∧
    (vfReplyHandler env reqBody up).2 = 0 := by
  by_cases hstate : env.stateId = ""
  · simp [vfReplyHandler, hstate, serverErrorResp, getField, lookupField]
  · rcases h with h | h
    · exact absurd h hstate
    · simp [vfReplyHandler, hstate, h, serverErrorResp, getField, lookupField]

/-- C10 applied concretely: both variables unset and a body that is also
missing both fields still yields 500 `server_error`, not 400. -/
theorem c10_env_check_precedes_validation_witness :
    (vfReplyHandler ⟨"", ""⟩ (JsVal.obj []) ⟨true, 200, none⟩).1.status = 500 ∧
    getField (vfReplyHandler ⟨"", ""⟩ (JsVal.obj []) ⟨true, 200, none⟩).1.body
      "error" = JsVal.str "server_error" ∧
    (vfReplyHandler ⟨"", ""⟩ (JsVal.obj []) ⟨true, 200, none⟩).2 = 0 :=
  c10_env_check_precedes_validation ⟨"", ""⟩ (JsVal.obj []) ⟨true, 200, none⟩
    (Or.inl rfl)

/-- C3: when the cache misses, the credentials are configured, the first
GET does not yield a key, the POST fails with a description containing
"already exists", and the recovery GET succeeds with a truthy key, the
handler returns exactly the key of the recovery GET, tagged
`fetched_after_exists`, stores that key in the cache stamped `now`, and
has issued all three outbound calls. -/
theorem c3_fetched_after_exists (env : DidEnv) (st : CacheState) (now : Int)
    (up : DidUpstream)
    (hmiss : (truthy st.cachedClientKey &&
        decide (now - st.cachedAt < TTL_MS)) = false)
    (huser : env.basicUser ≠ "") (hpass : env.basicPass ≠ "")
    (hget : (up.getFirst.ok &&
        truthy (keyOf (up.getFirst.jsonBody.getD (JsVal.obj [])))) = false)
    (hpost : up.postCreate.ok = false)
    (hdesc : descAlreadyExists (up.postCreate.jsonBody.getD (JsVal.obj [])) =
        some true)
    (hg2 : up.getRetry.ok = true)
    (hk2 : truthy (keyOf (up.getRetry.jsonBody.getD (JsVal.obj []))) = true) :
    didClientKeyHandler env st now up =
      (⟨200, JsVal.obj
          [("clientKey", keyOf (up.getRetry.jsonBody.getD (JsVal.obj []))),
           ("note", JsVal.str "fetched_after_exists")]⟩,
       cacheSet (keyOf (up.getRetry.jsonBody.getD (JsVal.obj []))) now, 3) := by
  rw [didClientKeyHandler]
  simp only [hmiss, Bool.false_eq_true, if_false]
  rw [if_neg huser, if_neg hpass]
  simp only [hget, Bool.false_eq_true, if_false, hpost, Bool.not_false, if_true,
    hdesc, hg2, hk2, Bool.not_true, Bool.or_self, Bool.or_false]

/-- C3 applied concretely: the POST answers a key `"POSTKEY"` alongside its
"already exists" description, the recovery GET answers `"GETKEY"`; the
handler returns and caches `"GETKEY"`. -/
theorem c3_fetched_after_exists_witness :
    didClientKeyHandler ⟨"u", "p", "https://example.org"⟩ ⟨JsVal.null, 0⟩ 0
        ⟨⟨false, 401, some (JsVal.obj [])⟩,
         ⟨false, 409, some (JsVal.obj
           [("description", JsVal.str "client key already exists"),
            ("client_key", JsVal.str "POSTKEY")])⟩,
         ⟨true, 200, some (JsVal.obj [("client_key", JsVal.str "GETKEY")])⟩⟩ =
      (⟨200, JsVal.obj [("clientKey", JsVal.str "GETKEY"),
          ("note", JsVal.str "fetched_after_exists")]⟩,
       cacheSet (JsVal.str "GETKEY") 0, 3) := by
  have h := c3_fetched_after_exists ⟨"u", "p", "https://example.org"⟩
    ⟨JsVal.null, 0⟩ 0
    ⟨⟨false, 401, some (JsVal.obj [])⟩,
     ⟨false, 409, some (JsVal.obj
       [("description", JsVal.str "client key already exists"),
        ("client_key", JsVal.str "POSTKEY")])⟩,
     ⟨true, 200, some (JsVal.obj [("client_key", JsVal.str "GETKEY")])⟩⟩
    (by decide) (by decide) (by decide) (by decide) rfl (by decide) rfl
    (by decide)
  simpa using h

/-- C6: when the cache misses, the credentials are configured, the first
GET does not yield a key, and the POST fails with a description not
containing "already exists", the handler answers 502 surfacing the POST
status and parsed body, leaves the cache unchanged, and issues no third
outbound call (exactly two calls). -/
theorem c6_unrelated_post_failure_surfaced (env : DidEnv) (st : CacheState)
    (now : Int) (up : DidUpstream)
    (hmiss : (truthy st.cachedClientKey &&
        decide (now - st.cachedAt < TTL_MS)) = false)
    (huser : env.basicUser ≠ "") (hpass : env.basicPass ≠ "")
    (hget : (up.getFirst.ok &&
        truthy (keyOf (up.getFirst.jsonBody.getD (JsVal.obj [])))) = false)
    (hpost : up.postCreate.ok = false)
    (hdesc : descAlreadyExists (up.postCreate.jsonBody.getD (JsVal.obj [])) =
        some false) :
    didClientKeyHandler env st now up =
      (⟨502, JsVal.obj [("error", JsVal.str "did_error"),
          ("status", JsVal.num up.postCreate.status),
          ("details", up.postCreate.jsonBody.getD (JsVal.obj []))]⟩, st, 2) := by
  rw [didClientKeyHandler]
  simp only [hmiss, Bool.false_eq_true, if_false]
  rw [if_neg huser, if_neg hpass]
  simp only [hget, Bool.false_eq_true, if_false, hpost, Bool.not_false, if_true,
    hdesc]

/-- C6 applied concretely: a 403 POST failure with an unrelated
description is surfaced as 502 with status 403 and the POST body, after
exactly two outbound calls. -/
theorem c6_unrelated_post_failure_surfaced_witness :
    didClientKeyHandler ⟨"u", "p", "https://example.org"⟩ ⟨JsVal.null, 0⟩ 0
        ⟨⟨false, 401, some (JsVal.obj [])⟩,
         ⟨false, 403, some (JsVal.obj
           [("description", JsVal.str "insufficient permissions")])⟩,
         ⟨true, 200, some (JsVal.obj [("client_key", JsVal.str "UNUSED")])⟩⟩ =
      (⟨502, JsVal.obj [("error", JsVal.str "did_error"),
          ("status", JsVal.num 403),
          ("details", JsVal.obj
            [("description", JsVal.str "insufficient permissions")])]⟩,
       ⟨JsVal.null, 0⟩, 2) := by
  have h := c6_unrelated_post_failure_surfaced ⟨"u", "p", "https://example.org"⟩
    ⟨JsVal.null, 0⟩ 0
    ⟨⟨false, 401, some (JsVal.obj [])⟩,
     ⟨false, 403, some (JsVal.obj
       [("description", JsVal.str "insufficient permissions")])⟩,
     ⟨true, 200, some (JsVal.obj [("client_key", JsVal.str "UNUSED")])⟩⟩
    (by decide) (by decide) (by decide) (by decide) rfl (by decide)
  simpa using h

/-- C9: on every path of the key handler the cache either stays exactly as
it was, or the response is a 200 carrying a truthy `clientKey` field and
the cache now holds precisely that returned key stamped with the current
clock reading — no failure path ever writes the cache. -/
theorem c9_cache_written_only_on_success (env : DidEnv) (st : CacheState)
    (now : Int) (up : DidUpstream) :
    (didClientKeyHandler env st now up).2.1 = st ∨
    ((didClientKeyHandler env st now up).1.status = 200 ∧
      (didClientKeyHandler env st now up).2.1 =
        cacheSet (getField (didClientKeyHandler env st now up).1.body
          "clientKey") now ∧
      truthy (getField (didClientKeyHandler env st now up).1.body
        "clientKey") = true) := by
  rcases h : didClientKeyHandler env st now up with ⟨resp, st2, n⟩
  simp only [didClientKeyHandler] at h
  repeat' split at h
  all_goals simp only [Prod.mk.injEq] at h
  all_goals obtain ⟨h1, h2, h3⟩ := h
  all_goals subst h1
  all_goals subst h2
  all_goals subst h3
  all_goals first
    | exact Or.inl rfl
    | (right
       refine ⟨rfl, ?_, ?_⟩
       · simp [cacheSet, getField, lookupField]
       · simp_all [getField, lookupField])
